import Mathlib

/-!
Verification of the irecovery library (src/irecovery.c, src/irecovery.h): a
shallow embedding of its data model and operations, with theorems about the
connection state machine, identity parser, finalization sequence, command
channel and upload engine.

Conventions of the embedding:
* machine integers are `Nat` (with explicit `% 256`, `/ 256`, ... where the
  C code masks or shifts); error codes are `Int` as in the C enum;
* USB transfers are recorded as values of `UsbFrame`; a run of the upload
  engine produces a trace (`List UploadEvent`);
* transport success/failure and device responses are explicit parameters
  (`UsbEnv`, `FinalizeEnv`, boolean flags), since the hardware is outside
  the program;
* `NULL` pointers become `Option.none`; the zero-filled `calloc` state
  becomes explicit default values.
-/

/- ---------------------------------------------------------------------
   Error codes (irecovery.h, irecovery_error_t)
   --------------------------------------------------------------------- -/

def IRECOVERY_E_SUCCESS : Int := 0
def IRECOVERY_E_BAD_PTR : Int := -1
def IRECOVERY_E_CLIENT_ALREADY_ACTIVE : Int := -2
def IRECOVERY_E_NO_MEMORY : Int := -3
def IRECOVERY_E_USB_INIT_FAILED : Int := -4
def IRECOVERY_E_NO_DEVICE : Int := -5
def IRECOVERY_E_DST_BUF_SIZE_ZERO : Int := -6
def IRECOVERY_E_DESCRIPTOR_FETCH_FAILED : Int := -7
def IRECOVERY_E_ECID_MISMATCH : Int := -8
def IRECOVERY_E_DESCRIPTOR_SET_FAILED : Int := -9
def IRECOVERY_E_INTERFACE_SET_FAILED : Int := -10
def IRECOVERY_E_FINALIZATION_BLOCKED : Int := -11
def IRECOVERY_E_USB_UPLOAD_FAILED : Int := -12
def IRECOVERY_E_INVALID_USB_STATUS : Int := -13
def IRECOVERY_E_COMMAND_TOO_LONG : Int := -14
def IRECOVERY_E_NO_COMMAND : Int := -15
def IRECOVERY_E_SERVICE_NOT_AVAILABLE : Int := -16
def IRECOVERY_E_USB_RESET_FAILED : Int := -17
def IRECOVERY_E_UNKNOWN_EVENT_TYPE : Int := -18

/- Mode constants (irecovery.h, enum irecovery_mode). -/

def IRECOVERY_K_RECOVERY_MODE_1 : Nat := 0x1280
def IRECOVERY_K_RECOVERY_MODE_2 : Nat := 0x1281
def IRECOVERY_K_RECOVERY_MODE_3 : Nat := 0x1282
def IRECOVERY_K_RECOVERY_MODE_4 : Nat := 0x1283
def IRECOVERY_K_WTF_MODE : Nat := 0x1222
def IRECOVERY_K_DFU_MODE : Nat := 0x1227
def IRECOVERY_K_PWNDFU_MODE : Nat := 0xffff

def APPLE_VENDOR_ID : Nat := 0x05AC

/- Send option bits (irecovery.h). -/

def IRECOVERY_SEND_OPT_DFU_NOTIFY_FINISH : Nat := 1
def IRECOVERY_SEND_OPT_DFU_FORCE_ZLP : Nat := 2
def IRECOVERY_SEND_OPT_DFU_SMALL_PKT : Nat := 4

/- ---------------------------------------------------------------------
   USB transfers as observable events
   --------------------------------------------------------------------- -/

/-- One USB transfer issued by the library.  For control transfers the
`data` field holds the bytes handed to `usb_ControlTransfer` (for IN
transfers, which carry no host data, it is `[]`); its length is the
`wLength` the code passes.  For bulk transfers it holds the payload. -/
inductive UsbFrame where
  | control (bmRequestType bRequest wValue wIndex : Nat) (data : List Nat)
  | bulk (endpoint : Nat) (data : List Nat)
deriving DecidableEq

/-- Observable step of `irecovery_send_buffer`: a USB frame, an invocation
of the progress callback (recording the `count` passed in the event and the
value the callback returned), or a device reset. -/
inductive UploadEvent where
  | frame (f : UsbFrame)
  | progress (count : Nat) (ret : Int)
  | reset
deriving DecidableEq

/- ---------------------------------------------------------------------
   CRC-32 (irecovery.c lines 366-435)
   --------------------------------------------------------------------- -/

/-- The 256-entry lookup table `crc32_lookup_t1` from irecovery.c. -/
def crc32_lookup_t1 : List Nat := [
    0x00000000, 0x77073096, 0xEE0E612C, 0x990951BA,
    0x076DC419, 0x706AF48F, 0xE963A535, 0x9E6495A3,
    0x0EDB8832, 0x79DCB8A4, 0xE0D5E91E, 0x97D2D988,
    0x09B64C2B, 0x7EB17CBD, 0xE7B82D07, 0x90BF1D91,
    0x1DB71064, 0x6AB020F2, 0xF3B97148, 0x84BE41DE,
    0x1ADAD47D, 0x6DDDE4EB, 0xF4D4B551, 0x83D385C7,
    0x136C9856, 0x646BA8C0, 0xFD62F97A, 0x8A65C9EC,
    0x14015C4F, 0x63066CD9, 0xFA0F3D63, 0x8D080DF5,
    0x3B6E20C8, 0x4C69105E, 0xD56041E4, 0xA2677172,
    0x3C03E4D1, 0x4B04D447, 0xD20D85FD, 0xA50AB56B,
    0x35B5A8FA, 0x42B2986C, 0xDBBBC9D6, 0xACBCF940,
    0x32D86CE3, 0x45DF5C75, 0xDCD60DCF, 0xABD13D59,
    0x26D930AC, 0x51DE003A, 0xC8D75180, 0xBFD06116,
    0x21B4F4B5, 0x56B3C423, 0xCFBA9599, 0xB8BDA50F,
    0x2802B89E, 0x5F058808, 0xC60CD9B2, 0xB10BE924,
    0x2F6F7C87, 0x58684C11, 0xC1611DAB, 0xB6662D3D,
    0x76DC4190, 0x01DB7106, 0x98D220BC, 0xEFD5102A,
    0x71B18589, 0x06B6B51F, 0x9FBFE4A5, 0xE8B8D433,
    0x7807C9A2, 0x0F00F934, 0x9609A88E, 0xE10E9818,
    0x7F6A0DBB, 0x086D3D2D, 0x91646C97, 0xE6635C01,
    0x6B6B51F4, 0x1C6C6162, 0x856530D8, 0xF262004E,
    0x6C0695ED, 0x1B01A57B, 0x8208F4C1, 0xF50FC457,
    0x65B0D9C6, 0x12B7E950, 0x8BBEB8EA, 0xFCB9887C,
    0x62DD1DDF, 0x15DA2D49, 0x8CD37CF3, 0xFBD44C65,
    0x4DB26158, 0x3AB551CE, 0xA3BC0074, 0xD4BB30E2,
    0x4ADFA541, 0x3DD895D7, 0xA4D1C46D, 0xD3D6F4FB,
    0x4369E96A, 0x346ED9FC, 0xAD678846, 0xDA60B8D0,
    0x44042D73, 0x33031DE5, 0xAA0A4C5F, 0xDD0D7CC9,
    0x5005713C, 0x270241AA, 0xBE0B1010, 0xC90C2086,
    0x5768B525, 0x206F85B3, 0xB966D409, 0xCE61E49F,
    0x5EDEF90E, 0x29D9C998, 0xB0D09822, 0xC7D7A8B4,
    0x59B33D17, 0x2EB40D81, 0xB7BD5C3B, 0xC0BA6CAD,
    0xEDB88320, 0x9ABFB3B6, 0x03B6E20C, 0x74B1D29A,
    0xEAD54739, 0x9DD277AF, 0x04DB2615, 0x73DC1683,
    0xE3630B12, 0x94643B84, 0x0D6D6A3E, 0x7A6A5AA8,
    0xE40ECF0B, 0x9309FF9D, 0x0A00AE27, 0x7D079EB1,
    0xF00F9344, 0x8708A3D2, 0x1E01F268, 0x6906C2FE,
    0xF762575D, 0x806567CB, 0x196C3671, 0x6E6B06E7,
    0xFED41B76, 0x89D32BE0, 0x10DA7A5A, 0x67DD4ACC,
    0xF9B9DF6F, 0x8EBEEFF9, 0x17B7BE43, 0x60B08ED5,
    0xD6D6A3E8, 0xA1D1937E, 0x38D8C2C4, 0x4FDFF252,
    0xD1BB67F1, 0xA6BC5767, 0x3FB506DD, 0x48B2364B,
    0xD80D2BDA, 0xAF0A1B4C, 0x36034AF6, 0x41047A60,
    0xDF60EFC3, 0xA867DF55, 0x316E8EEF, 0x4669BE79,
    0xCB61B38C, 0xBC66831A, 0x256FD2A0, 0x5268E236,
    0xCC0C7795, 0xBB0B4703, 0x220216B9, 0x5505262F,
    0xC5BA3BBE, 0xB2BD0B28, 0x2BB45A92, 0x5CB36A04,
    0xC2D7FFA7, 0xB5D0CF31, 0x2CD99E8B, 0x5BDEAE1D,
    0x9B64C2B0, 0xEC63F226, 0x756AA39C, 0x026D930A,
    0x9C0906A9, 0xEB0E363F, 0x72076785, 0x05005713,
    0x95BF4A82, 0xE2B87A14, 0x7BB12BAE, 0x0CB61B38,
    0x92D28E9B, 0xE5D5BE0D, 0x7CDCEFB7, 0x0BDBDF21,
    0x86D3D2D4, 0xF1D4E242, 0x68DDB3F8, 0x1FDA836E,
    0x81BE16CD, 0xF6B9265B, 0x6FB077E1, 0x18B74777,
    0x88085AE6, 0xFF0F6A70, 0x66063BCA, 0x11010B5C,
    0x8F659EFF, 0xF862AE69, 0x616BFFD3, 0x166CCF45,
    0xA00AE278, 0xD70DD2EE, 0x4E048354, 0x3903B3C2,
    0xA7672661, 0xD06016F7, 0x4969474D, 0x3E6E77DB,
    0xAED16A4A, 0xD9D65ADC, 0x40DF0B66, 0x37D83BF0,
    0xA9BCAE53, 0xDEBB9EC5, 0x47B2CF7F, 0x30B5FFE9,
    0xBDBDF21C, 0xCABAC28A, 0x53B39330, 0x24B4A3A6,
    0xBAD03605, 0xCDD70693, 0x54DE5729, 0x23D967BF,
    0xB3667A2E, 0xC4614AB8, 0x5D681B02, 0x2A6F2B94,
    0xB40BBE37, 0xC30C8EA1, 0x5A05DF1B, 0x2D02EF8D]

/-- The macro `crc32_step(a,b)`:
`a = crc32_lookup_t1[(a & 0xFF) ^ (unsigned char)b] ^ (a >> 8)`. -/
def crc32_step (a b : Nat) : Nat :=
  Nat.xor (crc32_lookup_t1.getD (Nat.xor (a % 256) (b % 256)) 0) (a / 256)

/-- Running the CRC step over a byte sequence (the accumulation that
`irecovery_send_buffer` performs on `h1`). -/
def crc32_acc (h : Nat) (bytes : List Nat) : Nat :=
  bytes.foldl crc32_step h

/-- The fixed 12-byte DFU magic `dfu_xbuf` from `irecovery_send_buffer`. -/
def dfu_xbuf : List Nat :=
  [0xff, 0xff, 0xff, 0xff, 0xac, 0x05, 0x00, 0x01, 0x55, 0x46, 0x44, 0x10]

/-- The four little-endian bytes of `h` that `irecovery_send_buffer`
appends after `dfu_xbuf` (`h & 0xFF`, `(h>>8) & 0xFF`, ...). -/
def le4 (h : Nat) : List Nat :=
  [h % 256, h / 256 % 256, h / 65536 % 256, h / 16777216 % 256]

/- ---------------------------------------------------------------------
   CRC-32 as the specification words it: parametrized by the reversed
   polynomial.  These definitions follow the spec's description "CRC-32
   (poly 0xEDB88820, init 0xFFFFFFFF, no final XOR)": the standard
   table-driven reflected CRC whose table is generated from the given
   reversed polynomial by eight shift/xor bit steps per entry.  They are
   used to compare the source's hard-coded table against the polynomial
   the spec names.
   --------------------------------------------------------------------- -/

/-- One bit step of a reflected CRC with reversed polynomial `poly`. -/
def crc_bit_step (poly c : Nat) : Nat :=
  if c % 2 == 1 then Nat.xor poly (c / 2) else c / 2

/-- `n` bit steps. -/
def crc_bit_iter (poly : Nat) : Nat → Nat → Nat
  | 0, c => c
  | n + 1, c => crc_bit_iter poly n (crc_bit_step poly c)

/-- Entry `i` of the table generated from `poly`. -/
def crc_table_entry (poly i : Nat) : Nat := crc_bit_iter poly 8 i

/-- The 256-entry table generated from `poly`. -/
def crc_table (poly : Nat) : List Nat :=
  (List.range 256).map (crc_table_entry poly)

/-- Byte step of the table-driven CRC for `poly`. -/
def crc32_of_poly_step (poly a b : Nat) : Nat :=
  Nat.xor ((crc_table poly).getD (Nat.xor (a % 256) (b % 256)) 0) (a / 256)

/-- CRC-32 of a byte sequence with reversed polynomial `poly`, initial
value 0xFFFFFFFF and no final XOR. -/
def crc32_of_poly (poly : Nat) (bytes : List Nat) : Nat :=
  bytes.foldl (crc32_of_poly_step poly) 0xFFFFFFFF

set_option maxRecDepth 8192

/-- The source's hard-coded table is exactly the table generated from the
reversed polynomial 0xEDB88320 (not 0xEDB88820). -/
theorem crc32_lookup_t1_eq_table : crc32_lookup_t1 = crc_table 0xEDB88320 := by
  decide

theorem crc32_step_eq_poly_step (a b : Nat) :
    crc32_step a b = crc32_of_poly_step 0xEDB88320 a b := by
  unfold crc32_step crc32_of_poly_step
  rw [crc32_lookup_t1_eq_table]

theorem crc32_acc_eq_crc32_of_poly (bytes : List Nat) :
    crc32_acc 0xFFFFFFFF bytes = crc32_of_poly 0xEDB88320 bytes := by
  unfold crc32_acc crc32_of_poly
  have h : ∀ (l : List Nat) (a : Nat),
      l.foldl crc32_step a = l.foldl (crc32_of_poly_step 0xEDB88320) a := by
    intro l
    induction l with
    | nil => intro a; rfl
    | cons x xs ih =>
        intro a
        simp only [List.foldl_cons, crc32_step_eq_poly_step, ih]
  exact h _ _

/- ---------------------------------------------------------------------
   Identity parser (irecovery.c, irecovery_load_device_info_from_iboot_string,
   lines 567-660).  The string manipulation uses `List Char` for the
   null-terminated C strings.  `strstr`/`strrchr` are the C library
   functions with their standard semantics; the `nsscanf` conversions come
   from the repository's nsscanf.h/.c, which is not under src/, and are
   modelled from the spec (see the individual doc comments).
   --------------------------------------------------------------------- -/

/-- `startsWith pat s`: `pat` is a prefix of `s` (helper for `strstr`). -/
def startsWith : List Char → List Char → Bool
  | [], _ => true
  | _ :: _, [] => false
  | p :: ps, c :: cs => p == c && startsWith ps cs

/-- C `strstr`: the suffix of `s` beginning at the first occurrence of
`pat`, or none. -/
def strstr (pat : List Char) : List Char → Option (List Char)
  | [] => if startsWith pat [] then some [] else none
  | c :: t => if startsWith pat (c :: t) then some (c :: t) else strstr pat t

/-- Hex digit test (accepting both cases, as scanf's %x does). -/
def isHexDigitC (c : Char) : Bool :=
  (('0' ≤ c) && (c ≤ '9')) || (('a' ≤ c) && (c ≤ 'f')) || (('A' ≤ c) && (c ≤ 'F'))

/-- Numeric value of a hex digit. -/
def hexVal (c : Char) : Nat :=
  if ('0' ≤ c) && (c ≤ '9') then c.toNat - '0'.toNat
  else if ('a' ≤ c) && (c ≤ 'f') then c.toNat - 'a'.toNat + 10
  else if ('A' ≤ c) && (c ≤ 'F') then c.toNat - 'A'.toNat + 10
  else 0

/-- Value of a run of hex digits, most significant first. -/
def hexListVal (ds : List Char) : Nat :=
  ds.foldl (fun a c => a * 16 + hexVal c) 0

/-- Modelled from the spec: the `%x` / `%llx` conversion of the
repository's `nsscanf` (nsscanf.h is not under src/).  Per the spec's
decode rules the value is read as hex; the conversion succeeds when at
least one hex digit follows, and a tag whose value fails to decode leaves
the field zero/empty. -/
def scan_hex_value (s : List Char) : Option Nat :=
  let ds := s.takeWhile isHexDigitC
  if ds.isEmpty then none else some (hexListVal ds)

/-- Modelled from the spec: the `%s]`-style conversion that
`irecovery_load_device_info_from_iboot_string` applies to bracketed tags
through `nsscanf` (nsscanf.h is not under src/).  Per the spec,
"Bracketed fields stop at the first `]` after the opening bracket":
the value is the run of characters up to (excluding) the first `]`. -/
def scan_bracket_chars (s : List Char) : List Char :=
  s.takeWhile (fun c => !(c == ']'))

/-- The `strrchr(tmp, ']')`-and-truncate step of the source: replace the
last `]` of `tmp` (if any) by the terminator, i.e. drop it and everything
after it.  Identity when `tmp` has no `]`. -/
def strrchr_trunc : List Char → List Char
  | [] => []
  | c :: t =>
      if t.contains ']' then c :: strrchr_trunc t
      else if c == ']' then []
      else c :: t

/-- `struct irecovery_device_info` (irecovery.h).  The C struct is
`memset` to zero before parsing and each field is written only when its
tag decodes, so a scalar field is `Option Nat` (`none` = left zero) and
a string/nonce field is `Option _` (`none` = left NULL).  The C pair
(nonce pointer, nonce size) becomes one `Option (List Nat)` whose length
is the size.  `pid` is written unconditionally from the descriptor. -/
structure DeviceInfo where
  cpid : Option Nat
  cprv : Option Nat
  cpfm : Option Nat
  scep : Option Nat
  bdid : Option Nat
  ecid : Option Nat
  ibfl : Option Nat
  srnm : Option (List Char)
  imei : Option (List Char)
  srtg : Option (List Char)
  serial_string : Option (List Char)
  pwnd : Option (List Char)
  ap_nonce : Option (List Nat)
  sep_nonce : Option (List Nat)
  pid : Nat
deriving DecidableEq

/-- The all-zero `device_info` produced by `memset`/`calloc`. -/
def emptyDeviceInfo : DeviceInfo :=
  { cpid := none, cprv := none, cpfm := none, scep := none, bdid := none,
    ecid := none, ibfl := none, srnm := none, imei := none, srtg := none,
    serial_string := none, pwnd := none, ap_nonce := none, sep_nonce := none,
    pid := 0 }

/-- One scalar tag block of the parser:
`ptr = strstr(iboot_string, TAG); if (ptr) nsscanf(ptr, TAG %x, &field);`.
The field keeps its zero (`none`) if the tag is absent or its value does
not decode. -/
def parse_scalar (tag : List Char) (s : List Char) : Option Nat :=
  match strstr tag s with
  | none => none
  | some suf => scan_hex_value (suf.drop tag.length)

/-- One bracketed tag block of the parser:
`ptr = strstr(iboot_string, TAG:[); if (ptr) { nsscanf(ptr, TAG:[%s], tmp);
ptr = strrchr(tmp, ']'); if (ptr) *ptr = 0; field = strdup(tmp); }`.
When the tag is present the field is set unconditionally (possibly to the
empty string). -/
def parse_bracket (tag : List Char) (s : List Char) : Option (List Char) :=
  match strstr tag s with
  | none => none
  | some suf => some (strrchr_trunc (scan_bracket_chars (suf.drop tag.length)))

def tagCPID : List Char := "CPID:".toList
def tagCPRV : List Char := "CPRV:".toList
def tagCPFM : List Char := "CPFM:".toList
def tagSCEP : List Char := "SCEP:".toList
def tagBDID : List Char := "BDID:".toList
def tagECID : List Char := "ECID:".toList
def tagIBFL : List Char := "IBFL:".toList
def tagSRNM : List Char := "SRNM:[".toList
def tagIMEI : List Char := "IMEI:[".toList
def tagSRTG : List Char := "SRTG:[".toList
def tagPWND : List Char := "PWND:[".toList

/-- The parsing core of `irecovery_load_device_info_from_iboot_string`:
zero the info, duplicate the raw string into `serial_string`, then decode
the eleven tags independently.  (`pid` and the client's `mode` are set
from the device descriptor by the caller-level function below.) -/
def parse_iboot_string (s : List Char) : DeviceInfo :=
  { emptyDeviceInfo with
    serial_string := some s,
    cpid := parse_scalar tagCPID s,
    cprv := parse_scalar tagCPRV s,
    cpfm := parse_scalar tagCPFM s,
    scep := parse_scalar tagSCEP s,
    bdid := parse_scalar tagBDID s,
    ecid := parse_scalar tagECID s,
    ibfl := parse_scalar tagIBFL s,
    srnm := parse_bracket tagSRNM s,
    imei := parse_bracket tagIMEI s,
    srtg := parse_bracket tagSRTG s,
    pwnd := parse_bracket tagPWND s }

/- ---------------------------------------------------------------------
   Nonce extraction (irecovery.c, irecovery_copy_nonce_with_tag_from_buffer,
   lines 721-784).  Pointers into the buffer are modelled as indices.
   --------------------------------------------------------------------- -/

/-- C `strchr` from position `start`: index of the first occurrence of
`ch` in `s` at or after `start`. -/
def strchr_idx (s : List Char) (start : Nat) (ch : Char) : Option Nat :=
  ((s.drop start).findIdx? (fun c => c == ch)).map (fun k => k + start)

/-- The tag-search loop of `irecovery_copy_nonce_with_tag_from_buffer`:
starting from position `p`, find the next `:`; give up if none or if
fewer than `taglen` characters precede it; if the `taglen` characters
before the colon equal the tag, the nonce text starts after the colon and
runs to the next space (or the end), giving `nlen/2` bytes; otherwise
continue after the next space.  `fuel` bounds the iteration (each step
moves `p` strictly forward, and `buf.length + 1` suffices). -/
def nonce_scan (buf tag : List Char) (taglen : Nat) : Nat → Nat → Option (Nat × Nat)
  | 0, _ => none
  | fuel + 1, p =>
    match strchr_idx buf p ':' with
    | none => none
    | some colon =>
      if colon < p + taglen then none
      else
        let space := strchr_idx buf colon ' '
        if (buf.drop (colon - taglen)).take taglen == tag then
          let q := colon + 1
          let nlen :=
            match space with
            | none => buf.length - q
            | some sp => sp - q
          some (q, nlen / 2)
        else
          match space with
          | none => none
          | some sp => nonce_scan buf tag taglen fuel (sp + 1)

/-- Modelled from the spec: the `%2x` conversion of the repository's
`nsscanf` (nsscanf.h is not under src/).  Per the spec's nonce rules,
pairs of hex digits decode to one byte each; half-bytes (a single
trailing digit) truncate to whole bytes, and a non-hex pair fails. -/
def hexPairVal : List Char → Option Nat
  | [] => none
  | [c1] => if isHexDigitC c1 then some (hexVal c1) else none
  | c1 :: c2 :: _ =>
      if isHexDigitC c1 then
        if isHexDigitC c2 then some (hexVal c1 * 16 + hexVal c2)
        else some (hexVal c1)
      else none

/-- The byte-decoding loop: `nlen` pairs of hex digits starting at the
nonce text.  Any failing pair aborts the whole nonce (the C code frees
the buffer and leaves the field untouched). -/
def parse_nonce_bytes (s : List Char) : Nat → Option (List Nat)
  | 0 => some []
  | n + 1 =>
    match hexPairVal (s.take 2) with
    | none => none
    | some v => (parse_nonce_bytes (s.drop 2) n).map (fun rest => v :: rest)

/-- `irecovery_copy_nonce_with_tag_from_buffer`: result is the decoded
nonce, or `none` when the tag is absent, empty, or fails to decode (in
all of which cases the C function returns without writing `*nonce`). -/
def irecovery_copy_nonce_with_tag_from_buffer (tag buf : List Char) :
    Option (List Nat) :=
  match nonce_scan buf tag tag.length (buf.length + 1) 0 with
  | none => none
  | some (q, nlen) =>
      if nlen == 0 then none else parse_nonce_bytes (buf.drop q) nlen

/- ---------------------------------------------------------------------
   Client state (struct irecovery_client, irecovery.c lines 39-54) and
   the USB event state machine (usb_event_handler, lines 851-950)
   --------------------------------------------------------------------- -/

/-- `irecovery_connection_policy_t` (irecovery.h). -/
inductive ConnectionPolicy where
  | acceptAll
  | acceptOnlyWhenNone
  | oneConnectionLimit
deriving DecidableEq

/-- The part of `usb_device_descriptor_t` the library reads. -/
structure DeviceDesc where
  idVendor : Nat
  idProduct : Nat
  iSerialNumber : Nat
deriving DecidableEq

/-- The zero descriptor (the `calloc`/`memset` state). -/
def zeroDeviceDesc : DeviceDesc :=
  { idVendor := 0, idProduct := 0, iSerialNumber := 0 }

/-- `struct irecovery_client`.  The static zone is {connection_policy,
ecid_restriction, num_connections} (the log callback is not modelled);
everything from `handle` on is the device zone.  A `NULL` handle is 0.
`finalized` is the C int: 0 pending, 1 finalized, -1 blocked.
`progress_callback` records only whether a callback is registered. -/
structure ClientState where
  connection_policy : ConnectionPolicy
  ecid_restriction : Nat
  num_connections : Nat
  handle : Nat
  device_descriptor : DeviceDesc
  device_info : DeviceInfo
  mode : Nat
  finalized : Int
  progress_callback : Bool
deriving DecidableEq

/-- `device_zone_nonzero`: the byte-wise scan of the device zone is
nonzero exactly when some device-zone field differs from its zero
value. -/
def device_zone_nonzero (c : ClientState) : Bool :=
  c.handle != 0 || c.device_descriptor != zeroDeviceDesc ||
  c.device_info != emptyDeviceInfo || c.mode != 0 || c.finalized != 0 ||
  c.progress_callback

/-- `irecovery_client_clear_device_zone`: free the owned strings/nonces
and `memset` the device zone to zero.  (The C code first checks
`device_zone_nonzero` and skips the memset when the zone is already
zero; the resulting state is the same.) -/
def irecovery_client_clear_device_zone (c : ClientState) : ClientState :=
  { c with
    handle := 0
    device_descriptor := zeroDeviceDesc
    device_info := emptyDeviceInfo
    mode := 0
    finalized := 0
    progress_callback := false }

/-- `irecovery_client_is_usable` (without the optional event-handler
run): client non-null, handle set, calculator still the USB host, and
device zone nonzero.  `host` stands for
`(usb_GetRole() & USB_ROLE_DEVICE) != USB_ROLE_DEVICE`. -/
def irecovery_client_is_usable (host : Bool) (c : ClientState) : Bool :=
  c.handle != 0 && host && device_zone_nonzero c

/-- The supported-product test of `irecovery_device_is_supported`. -/
def irecovery_supported_pid (pid : Nat) : Bool :=
  pid == IRECOVERY_K_RECOVERY_MODE_1 || pid == IRECOVERY_K_RECOVERY_MODE_2 ||
  pid == IRECOVERY_K_RECOVERY_MODE_3 || pid == IRECOVERY_K_RECOVERY_MODE_4 ||
  pid == IRECOVERY_K_WTF_MODE || pid == IRECOVERY_K_DFU_MODE

/-- USB events delivered to `usb_event_handler`.  `roleChanged true`
means the new role includes `USB_ROLE_DEVICE`. -/
inductive UsbEvent where
  | roleChanged (nowDevice : Bool)
  | deviceDisconnected (handle : Nat)
  | deviceConnected (handle : Nat)
  | deviceDisabled (handle : Nat)
  | deviceEnabled (handle : Nat)
deriving DecidableEq

/-- The adoption attempt inside the `USB_DEVICE_ENABLED_EVENT` arm:
`irecovery_device_is_supported(enabled_device, &client->device_descriptor)`
fetches the descriptor (writing it into the client in passing) and checks
vendor/product; on support the handle is stored, otherwise the device
zone is cleared.  `descs` gives each handle's descriptor (`none` =
`usb_GetDescriptor` fails, which also reports unsupported). -/
def usb_event_adopt (descs : Nat → Option DeviceDesc) (c : ClientState)
    (dev : Nat) : ClientState :=
  match descs dev with
  | none => irecovery_client_clear_device_zone c
  | some d =>
      let c1 := { c with device_descriptor := d }
      if d.idVendor == APPLE_VENDOR_ID && irecovery_supported_pid d.idProduct
      then { c1 with handle := dev }
      else irecovery_client_clear_device_zone c1

/-- `usb_event_handler`.  `host` is the role at the time of the event;
`descs` the descriptor-fetch environment.  Only the client-state effect
is modelled (logging and the bus reset of the connected arm have no
client-state effect). -/
def usb_event_handler (host : Bool) (descs : Nat → Option DeviceDesc)
    (c : ClientState) : UsbEvent → ClientState
  | .roleChanged nowDevice =>
      if nowDevice then irecovery_client_clear_device_zone c else c
  | .deviceDisconnected d =>
      if d == c.handle then irecovery_client_clear_device_zone c else c
  | .deviceConnected _ => c
  | .deviceDisabled _ => c
  | .deviceEnabled d =>
      if !host then c
      else if d == c.handle then c
      else
        match c.connection_policy with
        | .acceptAll => usb_event_adopt descs (irecovery_client_clear_device_zone c) d
        | .acceptOnlyWhenNone =>
            if irecovery_client_is_usable host c then c
            else usb_event_adopt descs c d
        | .oneConnectionLimit =>
            if c.num_connections == 1 then c
            else usb_event_adopt descs c d

/-- `irecovery_client_new`: `calloc` a zeroed client, then set the
static-zone members.  (`num_connections` starts at 0 and — faithful to
the source — is never written anywhere else.) -/
def irecovery_client_new (policy : ConnectionPolicy) (ecid : Nat) : ClientState :=
  { connection_policy := policy
    ecid_restriction := ecid
    num_connections := 0
    handle := 0
    device_descriptor := zeroDeviceDesc
    device_info := emptyDeviceInfo
    mode := 0
    finalized := 0
    progress_callback := false }

/- ---------------------------------------------------------------------
   Identification & finalization (irecovery.c, irecovery_finalize_client
   lines 806-849, irecovery_copy_nonce_with_tag lines 787-803,
   irecovery_poll_for_device lines 1027-1032)
   --------------------------------------------------------------------- -/

/-- Transport environment of a finalization attempt: whether the
calculator is the host, whether the iSerialNumber string-descriptor read
succeeds and its decoded ASCII content, whether `usb_SetConfiguration`
(including the configuration-descriptor fetch) succeeds, and whether the
index-1 string-descriptor read for the nonces succeeds and its content. -/
structure FinalizeEnv where
  host : Bool
  serial_ok : Bool
  serial_string : List Char
  set_config_ok : Bool
  nonce_ok : Bool
  nonce_string : List Char
deriving DecidableEq

/-- `irecovery_load_device_info_from_iboot_string` at the client level:
parse the identity string, then set `device_info.pid` and the client
`mode` from the stored device descriptor's `idProduct`. -/
def irecovery_load_device_info_from_iboot_string (c : ClientState)
    (iboot_string : List Char) : ClientState :=
  let di := parse_iboot_string iboot_string
  { c with
    device_info := { di with pid := c.device_descriptor.idProduct }
    mode := c.device_descriptor.idProduct }

/-- `irecovery_copy_nonce_with_tag`: returns early (leaving the field
as-is) when the client is unusable, the field is already set, or the
index-1 descriptor read fails; otherwise decodes the tag from the fetched
buffer — itself returning the field unchanged on any parse failure. -/
def irecovery_copy_nonce_with_tag (env : FinalizeEnv) (c : ClientState)
    (tag : List Char) (current : Option (List Nat)) : Option (List Nat) :=
  if !(irecovery_client_is_usable env.host c) then current
  else if current != none then current
  else if !env.nonce_ok then current
  else
    match irecovery_copy_nonce_with_tag_from_buffer tag env.nonce_string with
    | none => current
    | some n => some n

/-- `irecovery_finalize_client`.  Returns the error code and the client
state after the call. -/
def irecovery_finalize_client (env : FinalizeEnv) (c : ClientState) :
    Int × ClientState :=
  if !(irecovery_client_is_usable env.host c) then (IRECOVERY_E_NO_DEVICE, c)
  else if c.finalized > 0 then (IRECOVERY_E_SUCCESS, c)
  else if c.finalized < 0 then (IRECOVERY_E_FINALIZATION_BLOCKED, c)
  else if !env.serial_ok then (IRECOVERY_E_DESCRIPTOR_FETCH_FAILED, c)
  else
    let c1 := irecovery_load_device_info_from_iboot_string c env.serial_string
    if c1.ecid_restriction != 0 &&
        c1.ecid_restriction != c1.device_info.ecid.getD 0 then
      (IRECOVERY_E_ECID_MISMATCH, { c1 with finalized := -1 })
    else if !env.set_config_ok then
      (IRECOVERY_E_DESCRIPTOR_SET_FAILED, { c1 with finalized := -1 })
    else
      let ap := irecovery_copy_nonce_with_tag env c1 ("NONC".toList)
        c1.device_info.ap_nonce
      let sep := irecovery_copy_nonce_with_tag env c1 ("SNON".toList)
        c1.device_info.sep_nonce
      let c2 := { c1 with
        device_info := { c1.device_info with ap_nonce := ap, sep_nonce := sep } }
      (IRECOVERY_E_SUCCESS, { c2 with finalized := 1 })

/-- `irecovery_poll_for_device`: run `usb_HandleEvents` (dispatching any
pending USB events through `usb_event_handler`), then attempt
finalization. -/
def irecovery_poll_for_device (env : FinalizeEnv)
    (descs : Nat → Option DeviceDesc) (pending : List UsbEvent)
    (c : ClientState) : Int × ClientState :=
  irecovery_finalize_client env
    (pending.foldl (fun st e => usb_event_handler env.host descs st e) c)

/- ---------------------------------------------------------------------
   Command channel (irecovery.c, irecovery_send_command_raw lines
   1190-1210, irecovery_send_command_breq lines 1213-1231,
   irecovery_is_breq_command lines 1234-1241, irecovery_send_command
   lines 1244-1249)
   --------------------------------------------------------------------- -/

/-- The recovery-mode test shared by the command functions. -/
def mode_is_recovery (mode : Nat) : Bool :=
  mode == IRECOVERY_K_RECOVERY_MODE_1 || mode == IRECOVERY_K_RECOVERY_MODE_2 ||
  mode == IRECOVERY_K_RECOVERY_MODE_3 || mode == IRECOVERY_K_RECOVERY_MODE_4

/-- `irecovery_send_command_raw`.  `usable` is the
`irecovery_client_is_usable` result, `ctrl_ok` whether the control
transfer succeeds.  Returns the error code and the transmitted frame (if
any); the frame's data is the command's bytes plus its null terminator,
and its length is the `w_length = strlen(command) + 1` the code passes. -/
def irecovery_send_command_raw (usable ctrl_ok : Bool) (mode : Nat)
    (command : List Char) (b_request : Nat) : Int × Option UsbFrame :=
  if !usable then (IRECOVERY_E_NO_DEVICE, none)
  else if !(mode_is_recovery mode) then (IRECOVERY_E_SERVICE_NOT_AVAILABLE, none)
  else if command.length ≥ 256 then (IRECOVERY_E_COMMAND_TOO_LONG, none)
  else if command.length > 0 then
    if ctrl_ok then
      (IRECOVERY_E_SUCCESS,
        some (UsbFrame.control 0x40 b_request 0 0 (command.map Char.toNat ++ [0])))
    else (IRECOVERY_E_USB_UPLOAD_FAILED, none)
  else (IRECOVERY_E_NO_COMMAND, none)

/-- `irecovery_send_command_breq`: re-checks usability, mode and length,
then delegates to `irecovery_send_command_raw`. -/
def irecovery_send_command_breq (usable ctrl_ok : Bool) (mode : Nat)
    (command : List Char) (b_request : Nat) : Int × Option UsbFrame :=
  if !usable then (IRECOVERY_E_NO_DEVICE, none)
  else if !(mode_is_recovery mode) then (IRECOVERY_E_SERVICE_NOT_AVAILABLE, none)
  else if command.length ≥ 256 then (IRECOVERY_E_COMMAND_TOO_LONG, none)
  else irecovery_send_command_raw usable ctrl_ok mode command b_request

/-- `irecovery_is_breq_command`. -/
def irecovery_is_breq_command (cmd : List Char) : Bool :=
  cmd == "go".toList || cmd == "bootx".toList || cmd == "reboot".toList ||
  cmd == "memboot".toList

/-- `irecovery_send_command`: classify the command and delegate. -/
def irecovery_send_command (usable ctrl_ok : Bool) (mode : Nat)
    (command : List Char) : Int × Option UsbFrame :=
  irecovery_send_command_breq usable ctrl_ok mode command
    (if irecovery_is_breq_command command then 1 else 0)

/- ---------------------------------------------------------------------
   irecovery_getenv (irecovery.c lines 1417-1440)
   --------------------------------------------------------------------- -/

/-- The C-string length of a byte buffer: bytes before the first NUL. -/
def cstrlen (l : List Nat) : Nat :=
  (l.takeWhile (fun b => b != 0)).length

/-- `irecovery_getenv`.  `usable`/`mode`/`cmd_ok` feed the inner
`irecovery_send_command_raw`; `calloc_ok` is the 256-byte response
allocation; `read_ok` the `0xC0` control read, and `response` the bytes
the device writes into it (the transfer's `w_length` is 255, so at most
the first 255 bytes are written).  `value_in` is `*value` on entry.
Returns the error code and `*value` after the call. -/
def irecovery_getenv (usable cmd_ok calloc_ok read_ok : Bool) (mode : Nat)
    (variable_name : List Char) (value_in : Option (List Nat))
    (response : List Nat) : Int × Option (List Nat) :=
  if value_in != none then (IRECOVERY_E_BAD_PTR, value_in)
  else
    let command := ("getenv ".toList ++ variable_name).take 254
    let e := (irecovery_send_command_raw usable cmd_ok mode command 0).1
    if e != IRECOVERY_E_SUCCESS then (e, value_in)
    else if !calloc_ok then (IRECOVERY_E_NO_MEMORY, value_in)
    else if !read_ok then (IRECOVERY_E_USB_UPLOAD_FAILED, value_in)
    else
      let written := response.take 255
      (IRECOVERY_E_SUCCESS,
        some (written ++ List.replicate (256 - written.length) 0))

/- ---------------------------------------------------------------------
   Upload engine (irecovery.c, irecovery_send_buffer lines 1252-1408).
   The model records every USB transfer the function issues as a trace.
   Transfers are modelled as succeeding at the transport level (the
   transferred count equals the requested length); the device's answers
   to GETSTATE/GETSTATUS come from `UsbEnv`.
   --------------------------------------------------------------------- -/

/-- Device answers during an upload: the 1-byte GETSTATE (`0xA1, 5`)
response and byte 4 of the GETSTATUS (`0xA1, 3`) response (constant over
the run). -/
structure UsbEnv where
  device_state : Nat
  status : Nat
deriving DecidableEq

/-- The GETSTATUS request (`0xA1, 3`) issued by `irecovery_get_status`:
an IN transfer carrying no host data. -/
def get_status_frame : UploadEvent :=
  UploadEvent.frame (UsbFrame.control 0xA1 3 0 0 [])

/-- The progress emission after a packet: the event carries the running
`count`; the callback's return value is recorded in the trace — and, like
the source, nothing reads it. -/
def progress_events (cb : Option (Nat → Int)) (count : Nat) : List UploadEvent :=
  match cb with
  | none => []
  | some f => [UploadEvent.progress count (f count)]

/-- The per-packet `for (i = 0; i < packets; i++)` loop of
`irecovery_send_buffer`, iterating from index `i` with `fuel` packets
remaining (called with `fuel = packets`, `i = 0`, `h1 = 0xFFFFFFFF`,
`count = 0`).  Returns the events of the remaining iterations and the
loop's exit code (`0` = ran to completion).

Recovery mode: the packet goes out as a bulk transfer on endpoint 0x04,
and — faithful to this port, whose `irecovery_usb_bulk_transfer` returns
the transferred byte count — `error` is assigned that count, so the
`error != IRECOVERY_E_SUCCESS` check makes the loop return the count
after the first packet whenever it is nonzero.

DFU/WTF mode: the packet bytes enter the running CRC; the final packet
gets the 12-byte `dfu_xbuf` magic plus 4 CRC bytes appended — into the
same control transfer if `size + 16` still fits in `packet_size`, else as
a separate 16-byte transfer after the chunk; then GETSTATUS is polled,
with up to 20 retries until status 5, and the progress callback runs. -/
def irecovery_send_buffer_loop (env : UsbEnv) (cb : Option (Nat → Int))
    (recovery_mode : Bool) (buffer : List Nat)
    (packet_size packets last : Nat) :
    Nat → Nat → Nat → Nat → List UploadEvent × Int
  | 0, _, _, _ => ([], IRECOVERY_E_SUCCESS)
  | fuel + 1, i, h1, count =>
    let size := if i + 1 < packets then packet_size else last
    let data := (buffer.drop (i * packet_size)).take size
    if recovery_mode then
      let events := [UploadEvent.frame (UsbFrame.bulk 0x04 data)]
      let error : Int := Int.ofNat size
      if error != IRECOVERY_E_SUCCESS then (events, error)
      else
        let count1 := count + size
        let events2 := progress_events cb count1
        let r := irecovery_send_buffer_loop env cb recovery_mode buffer
          packet_size packets last fuel (i + 1) h1 count1
        (events ++ events2 ++ r.1, r.2)
    else
      let h2 := crc32_acc h1 data
      let step : List UploadEvent × Nat × Nat × Nat :=
        if i + 1 == packets then
          if size + 16 > packet_size then
            let h3 := crc32_acc h2 dfu_xbuf
            ([UploadEvent.frame (UsbFrame.control 0x21 1 i 0 data),
              UploadEvent.frame (UsbFrame.control 0x21 1 i 0 (dfu_xbuf ++ le4 h3))],
             16, count + size, h3)
          else
            let h3 := crc32_acc h2 dfu_xbuf
            ([UploadEvent.frame (UsbFrame.control 0x21 1 i 0 (data ++ dfu_xbuf ++ le4 h3))],
             size + 16, count, h3)
        else
          ([UploadEvent.frame (UsbFrame.control 0x21 1 i 0 data)], size, count, h2)
      match step with
      | (events, size1, count1, h3) =>
        let events1 := events ++ [get_status_frame]
        if env.status == 5 then
          let count2 := count1 + size1
          let events2 := progress_events cb count2
          let r := irecovery_send_buffer_loop env cb recovery_mode buffer
            packet_size packets last fuel (i + 1) h3 count2
          (events1 ++ events2 ++ r.1, r.2)
        else
          (events1 ++ List.replicate 20 get_status_frame,
           IRECOVERY_E_USB_UPLOAD_FAILED)

/-- `irecovery_send_buffer`.  `cb` is the registered progress callback
(`none` when unsubscribed); `options` the `IRECOVERY_SEND_OPT_*` bitmask.
Returns the full trace of USB transfers/progress emissions and the
function's return value. -/
def irecovery_send_buffer (env : UsbEnv) (cb : Option (Nat → Int))
    (mode : Nat) (buffer : List Nat) (options : Nat) :
    List UploadEvent × Int :=
  let recovery_mode :=
    !(mode == IRECOVERY_K_DFU_MODE) && !(mode == IRECOVERY_K_WTF_MODE)
  let packet_size := if recovery_mode then 0x8000 else 0x800
  let last0 := buffer.length % packet_size
  let packets0 := buffer.length / packet_size
  let packets := if last0 != 0 then packets0 + 1 else packets0
  let last := if last0 != 0 then last0 else packet_size
  let init : List UploadEvent × Int :=
    if recovery_mode then
      ([UploadEvent.frame (UsbFrame.control 0x41 0 0 0 [])],
       IRECOVERY_E_SUCCESS)
    else
      let ev := UploadEvent.frame (UsbFrame.control 0xA1 5 0 0 [])
      if env.device_state == 2 then ([ev], IRECOVERY_E_SUCCESS)
      else if env.device_state == 10 then
        ([ev, UploadEvent.frame (UsbFrame.control 0x21 4 0 0 [])],
         IRECOVERY_E_USB_UPLOAD_FAILED)
      else
        ([ev, UploadEvent.frame (UsbFrame.control 0x21 6 0 0 [])],
         IRECOVERY_E_USB_UPLOAD_FAILED)
  if init.2 != IRECOVERY_E_SUCCESS then init
  else
    let r := irecovery_send_buffer_loop env cb recovery_mode buffer
      packet_size packets last packets 0 0xFFFFFFFF 0
    if r.2 != IRECOVERY_E_SUCCESS then (init.1 ++ r.1, r.2)
    else
      let zlp :=
        if recovery_mode && buffer.length % 512 == 0 then
          [UploadEvent.frame (UsbFrame.bulk 0x04 [])]
        else []
      let finish :=
        if (options &&& IRECOVERY_SEND_OPT_DFU_NOTIFY_FINISH) != 0 &&
            !recovery_mode then
          [UploadEvent.frame (UsbFrame.control 0x21 1 packets 0 []),
           get_status_frame, get_status_frame] ++
          (if (options &&& IRECOVERY_SEND_OPT_DFU_FORCE_ZLP) != 0 then
            [UploadEvent.frame (UsbFrame.control 0x21 0 0 0 [])]
          else []) ++
          [UploadEvent.reset]
        else []
      (init.1 ++ r.1 ++ zlp ++ finish, IRECOVERY_E_SUCCESS)

/- ---------------------------------------------------------------------
   Trace observations
   --------------------------------------------------------------------- -/

/-- A data-carrying DFU download-chunk control transfer (`0x21, 1`). -/
def is_dl_chunk : UploadEvent → Bool
  | .frame (.control bm br _ _ d) => bm == 0x21 && br == 1 && !d.isEmpty
  | _ => false

/-- Number of download-chunk transfers in a trace. -/
def count_dl_chunks (tr : List UploadEvent) : Nat :=
  (tr.filter is_dl_chunk).length

/-- Data carried by one event, when it is a `0x21, 1` transfer. -/
def chunk_data : UploadEvent → List Nat
  | .frame (.control bm br _ _ d) => if bm == 0x21 && br == 1 then d else []
  | _ => []

/-- Concatenated data of all `0x21, 1` download transfers of a trace. -/
def dl_chunk_data : List UploadEvent → List Nat
  | [] => []
  | e :: tr => chunk_data e ++ dl_chunk_data tr

/-- A bulk frame on endpoint 0x04. -/
def is_bulk_frame : UploadEvent → Bool
  | .frame (.bulk ep _) => ep == 0x04
  | _ => false

/-- Number of bulk frames on endpoint 0x04 in a trace. -/
def count_bulk_frames (tr : List UploadEvent) : Nat :=
  (tr.filter is_bulk_frame).length

/-- A payload-carrying frame (bulk packet or download chunk). -/
def is_data_frame (e : UploadEvent) : Bool :=
  is_dl_chunk e || is_bulk_frame e

/-- True when the trace contains a progress emission whose callback
returned a nonzero value, followed (later in the trace) by another
payload-carrying frame. -/
def packet_after_nonzero_callback : List UploadEvent → Bool
  | [] => false
  | UploadEvent.progress _ r :: tr =>
      (r != 0 && tr.any is_data_frame) || packet_after_nonzero_callback tr
  | _ :: tr => packet_after_nonzero_callback tr

/- ---------------------------------------------------------------------
   Helper lemmas
   --------------------------------------------------------------------- -/

theorem dl_chunk_data_append (a b : List UploadEvent) :
    dl_chunk_data (a ++ b) = dl_chunk_data a ++ dl_chunk_data b := by
  induction a with
  | nil => rfl
  | cons e t ih => simp [dl_chunk_data, ih]

theorem crc32_acc_append (h : Nat) (a b : List Nat) :
    crc32_acc h (a ++ b) = crc32_acc (crc32_acc h a) b := by
  unfold crc32_acc
  exact List.foldl_append crc32_step h a b

theorem dl_chunk_data_progress (cb : Option (Nat → Int)) (count : Nat) :
    dl_chunk_data (progress_events cb count) = [] := by
  cases cb <;> rfl


set_option maxHeartbeats 1000000

/-- The DFU/WTF per-packet loop, run from packet `i` with the invariant
that the un-sent suffix has exactly `fuel` packets left (the final one of
`last` bytes), transmits exactly that suffix followed by the 12 magic
bytes and the 4 little-endian CRC bytes, and exits with success. -/
theorem send_loop_dfu_spec (env : UsbEnv) (cb : Option (Nat → Int))
    (buffer : List Nat) (packet_size packets last : Nat)
    (hst : env.status = 5) :
    ∀ (fuel i h1 count : Nat), 0 < fuel → i + fuel = packets →
      (buffer.drop (i * packet_size)).length = (fuel - 1) * packet_size + last →
      dl_chunk_data (irecovery_send_buffer_loop env cb false buffer packet_size
          packets last fuel i h1 count).1
        = buffer.drop (i * packet_size) ++ dfu_xbuf ++
          le4 (crc32_acc h1 (buffer.drop (i * packet_size) ++ dfu_xbuf)) ∧
      (irecovery_send_buffer_loop env cb false buffer packet_size packets last
          fuel i h1 count).2 = IRECOVERY_E_SUCCESS := by
  intro fuel
  induction fuel with
  | zero => intro i h1 count h0 _ _; exact absurd h0 (by omega)
  | succ n ih =>
    intro i h1 count _ hip hlen
    have hst5 : (env.status == 5) = true := by simp [hst]
    by_cases hmid : i + 1 < packets
    · -- middle packet: full packet_size chunk, then recurse
      have hn : 0 < n := by omega
      have hne : ¬((i + 1 == packets) = true) := by simp; omega
      have hd : buffer.drop ((i + 1) * packet_size)
          = List.drop packet_size (buffer.drop (i * packet_size)) := by
        rw [List.drop_drop]
        have hmul : (i + 1) * packet_size = i * packet_size + packet_size := by
          ring
        rw [hmul]
      have hlen1 : (buffer.drop ((i + 1) * packet_size)).length
          = (n - 1) * packet_size + last := by
        rw [hd, List.length_drop, hlen]
        have hexp : (n + 1 - 1) * packet_size
            = (n - 1) * packet_size + packet_size := by
          have h1' : n + 1 - 1 = (n - 1) + 1 := by omega
          rw [h1', Nat.succ_mul]
        rw [hexp]
        omega
      obtain ⟨ihd, ihe⟩ := ih (i + 1)
        (crc32_acc h1 ((buffer.drop (i * packet_size)).take packet_size))
        (count + packet_size) hn (by omega) hlen1
      have hsplit : (buffer.drop (i * packet_size)).take packet_size ++
          buffer.drop ((i + 1) * packet_size) = buffer.drop (i * packet_size) := by
        rw [hd, List.take_append_drop]
      simp only [irecovery_send_buffer_loop, if_pos hmid, hne, Bool.false_eq_true,
        if_false, hst5, if_true]
      simp [dl_chunk_data_append, dl_chunk_data, chunk_data, get_status_frame,
        dl_chunk_data_progress, List.append_eq]
      rw [ihd, ihe]
      refine ⟨?_, rfl⟩
      generalize (buffer.drop (i * packet_size)).take packet_size = t at hsplit ⊢
      generalize buffer.drop ((i + 1) * packet_size) = d at hsplit ⊢
      generalize buffer.drop (i * packet_size) = D at hsplit ⊢
      subst hsplit
      simp [List.append_assoc, crc32_acc_append]
    · -- final packet: the CRC trailer goes out with (or right after) it
      have hlast : i + 1 = packets := by omega
      have hn0 : n = 0 := by omega
      subst hn0
      have heq : (i + 1 == packets) = true := by simp [hlast]
      have hdata : (buffer.drop (i * packet_size)).take last
          = buffer.drop (i * packet_size) := by
        apply List.take_of_length_le
        omega
      by_cases hbig : last + 16 > packet_size
      · simp only [irecovery_send_buffer_loop, if_neg hmid, heq, if_true,
          if_pos hbig, hst5, Bool.false_eq_true, if_false]
        simp [dl_chunk_data_append, dl_chunk_data, chunk_data, get_status_frame,
          dl_chunk_data_progress, hdata, List.append_eq, irecovery_send_buffer_loop]
        rw [crc32_acc_append]
      · simp only [irecovery_send_buffer_loop, if_neg hmid, heq, if_true,
          if_neg hbig, hst5, Bool.false_eq_true, if_false]
        simp [dl_chunk_data_append, dl_chunk_data, chunk_data, get_status_frame,
          dl_chunk_data_progress, hdata, List.append_eq, irecovery_send_buffer_loop]
        rw [crc32_acc_append]

/-- C1 (amended): for every payload of length L > 0 uploaded with
send_buffer while the client's mode is DFU or WTF (device IDLE,
status polls answering 5), the 4 trailing bytes of the transmitted
16-byte trailer equal, in little-endian order, the CRC-32 with reversed
polynomial 0xEDB88320 (not 0xEDB88820 as the claim states), initial
value 0xFFFFFFFF and no final XOR, computed over the concatenation of
the entire payload with the 12-byte magic
FF FF FF FF AC 05 00 01 55 46 44 10: the bytes carried by the `0x21, 1`
download transfers are exactly the payload, the magic, then those 4 CRC
bytes. -/
theorem claim_C1_dfu_crc_trailer (env : UsbEnv) (cb : Option (Nat → Int))
    (mode : Nat) (buffer : List Nat) (options : Nat)
    (hmode : mode = IRECOVERY_K_DFU_MODE ∨ mode = IRECOVERY_K_WTF_MODE)
    (hlen : 0 < buffer.length)
    (hstate : env.device_state = 2) (hst : env.status = 5) :
    dl_chunk_data (irecovery_send_buffer env cb mode buffer options).1
      = buffer ++ dfu_xbuf ++
        le4 (crc32_of_poly 0xEDB88320 (buffer ++ dfu_xbuf)) := by
  have hrec : (!(mode == IRECOVERY_K_DFU_MODE) &&
      !(mode == IRECOVERY_K_WTF_MODE)) = false := by
    rcases hmode with h | h <;> simp [h]
  have hstate2 : (env.device_state == 2) = true := by simp [hstate]
  by_cases hrem : buffer.length % 0x800 = 0
  · -- exact multiple of the packet size: `last` becomes a full packet
    have hq : 0 < buffer.length / 0x800 := by
      rcases Nat.eq_zero_or_pos (buffer.length / 0x800) with h0 | h0
      · exfalso
        have := Nat.div_add_mod buffer.length 0x800
        omega
      · exact h0
    have hlen0 : (buffer.drop (0 * 0x800)).length
        = (buffer.length / 0x800 - 1) * 0x800 + 0x800 := by
      simp only [Nat.zero_mul, List.drop_zero]
      have hqm : (buffer.length / 0x800 - 1) * 0x800 + 0x800
          = (buffer.length / 0x800) * 0x800 := by
        have h1' : buffer.length / 0x800 = (buffer.length / 0x800 - 1) + 1 := by
          omega
        conv_rhs => rw [h1', Nat.succ_mul]
      rw [hqm]
      have := Nat.div_add_mod buffer.length 0x800
      omega
    obtain ⟨hdata, herr⟩ := send_loop_dfu_spec env cb buffer 0x800
      (buffer.length / 0x800) 0x800 hst (buffer.length / 0x800) 0 0xFFFFFFFF 0
      hq (by omega) hlen0
    simp only [irecovery_send_buffer, hrec, Bool.false_eq_true, if_false,
      hstate2, if_true, hrem, bne_self_eq_false]
    rw [crc32_acc_eq_crc32_of_poly] at hdata
    simp only [Nat.zero_mul, List.drop_zero] at hdata
    simp [herr, hdata, IRECOVERY_E_SUCCESS, dl_chunk_data_append, dl_chunk_data,
      chunk_data, get_status_frame]
    split_ifs <;>
      simp [dl_chunk_data_append, dl_chunk_data, chunk_data, get_status_frame,
        List.append_assoc]
  · -- a proper remainder: one extra packet of `last` bytes
    have hlen0 : (buffer.drop (0 * 0x800)).length
        = (buffer.length / 0x800 + 1 - 1) * 0x800 + buffer.length % 0x800 := by
      simp only [Nat.zero_mul, List.drop_zero, Nat.add_sub_cancel]
      have := Nat.div_add_mod buffer.length 0x800
      omega
    obtain ⟨hdata, herr⟩ := send_loop_dfu_spec env cb buffer 0x800
      (buffer.length / 0x800 + 1) (buffer.length % 0x800) hst
      (buffer.length / 0x800 + 1) 0 0xFFFFFFFF 0 (by omega) (by omega) hlen0
    simp only [irecovery_send_buffer, hrec, Bool.false_eq_true, if_false,
      hstate2, if_true]
    simp only [show ((buffer.length % 0x800 != 0) = true) by simp [hrem]]
    simp only [if_true]
    rw [crc32_acc_eq_crc32_of_poly] at hdata
    simp only [Nat.zero_mul, List.drop_zero] at hdata
    simp [herr, hdata, IRECOVERY_E_SUCCESS, dl_chunk_data_append, dl_chunk_data,
      chunk_data, get_status_frame]
    split_ifs <;>
      simp [dl_chunk_data_append, dl_chunk_data, chunk_data, get_status_frame,
        List.append_assoc]

/-- Witness for C1: a concrete one-byte DFU upload, with every hypothesis
discharged at that input. -/
theorem claim_C1_witness :
    dl_chunk_data (irecovery_send_buffer ⟨2, 5⟩ none IRECOVERY_K_DFU_MODE [0] 0).1
      = [0] ++ dfu_xbuf ++ le4 (crc32_of_poly 0xEDB88320 ([0] ++ dfu_xbuf)) :=
  claim_C1_dfu_crc_trailer ⟨2, 5⟩ none IRECOVERY_K_DFU_MODE [0] 0
    (Or.inl rfl) (by decide) rfl rfl

/-- Counterexample to C1 as stated: for the one-byte payload 00 uploaded
in DFU mode, the transmitted trailer does not end with the CRC-32 of
reversed polynomial 0xEDB88820 over payload ++ magic — the source's table
is the 0xEDB88320 table. -/
theorem claim_C1_counterexample :
    ¬ (dl_chunk_data (irecovery_send_buffer ⟨2, 5⟩ none IRECOVERY_K_DFU_MODE [0] 0).1
        = [0] ++ dfu_xbuf ++ le4 (crc32_of_poly 0xEDB88820 ([0] ++ dfu_xbuf))) := by
  decide

theorem count_dl_chunks_append (a b : List UploadEvent) :
    count_dl_chunks (a ++ b) = count_dl_chunks a + count_dl_chunks b := by
  simp [count_dl_chunks, List.filter_append]

theorem count_dl_chunks_progress (cb : Option (Nat → Int)) (count : Nat) :
    count_dl_chunks (progress_events cb count) = 0 := by
  cases cb <;> rfl

/-- C5: this port's `irecovery_usb_bulk_transfer` returns the transferred
byte count, which the recovery branch of the upload loop assigns to
`error`; the `error != IRECOVERY_E_SUCCESS` check then returns that count
after the first packet.  Uploading 512 bytes in recovery mode (where the
claim expects ⌈512/0x8000⌉ + 1 = 2 bulk frames — one packet and one ZLP —
and a success return) transmits exactly one bulk frame and returns 512. -/
theorem claim_C5_recovery_upload_bug :
    count_bulk_frames (irecovery_send_buffer ⟨2, 5⟩ none
        IRECOVERY_K_RECOVERY_MODE_1 (List.replicate 512 0) 0).1 = 1 ∧
    (irecovery_send_buffer ⟨2, 5⟩ none IRECOVERY_K_RECOVERY_MODE_1
        (List.replicate 512 0) 0).2 = 512 := by
  decide


/-- C6 (amended): a DFU/WTF upload of length L with 0 < L and
L + 16 <= 0x800 (so the 16-byte CRC trailer still fits into the same
packet) transmits exactly one data-carrying download-chunk control
transfer (`0x21, 1`), and that single chunk carries the payload with the
16-byte trailer appended.  The claim as stated asserts this for all
0 < L < 0x800, but for 0x800 - 16 < L < 0x800 the source sends the chunk
and the trailer as two separate transfers (see the counterexample). -/
theorem claim_C6_dfu_single_chunk (env : UsbEnv) (cb : Option (Nat → Int))
    (mode : Nat) (buffer : List Nat) (options : Nat)
    (hmode : mode = IRECOVERY_K_DFU_MODE ∨ mode = IRECOVERY_K_WTF_MODE)
    (hlen : 0 < buffer.length) (hsmall : buffer.length + 16 ≤ 0x800)
    (hstate : env.device_state = 2) (hst : env.status = 5) :
    count_dl_chunks (irecovery_send_buffer env cb mode buffer options).1 = 1 ∧
    dl_chunk_data (irecovery_send_buffer env cb mode buffer options).1
      = buffer ++ dfu_xbuf ++ le4 (crc32_acc 0xFFFFFFFF (buffer ++ dfu_xbuf)) := by
  have hrec : (!(mode == IRECOVERY_K_DFU_MODE) &&
      !(mode == IRECOVERY_K_WTF_MODE)) = false := by
    rcases hmode with h | h <;> simp [h]
  have hstate2 : (env.device_state == 2) = true := by simp [hstate]
  have hst5 : (env.status == 5) = true := by simp [hst]
  have hlt : buffer.length < 0x800 := by omega
  have hmod : buffer.length % 0x800 = buffer.length := Nat.mod_eq_of_lt hlt
  have hdiv : buffer.length / 0x800 = 0 := Nat.div_eq_of_lt hlt
  have h0 : buffer.length ≠ 0 := by omega
  have hmodne : (buffer.length % 0x800 != 0) = true := by
    rw [hmod]; simp [h0]
  have htake : (buffer.drop (0 * 0x800)).take buffer.length = buffer := by
    simp
  have hnotbig : ¬(buffer.length + 16 > 0x800) := by omega
  simp only [irecovery_send_buffer, hrec, Bool.false_eq_true, if_false,
    hstate2, if_true, hmodne, hmod, hdiv, Nat.zero_add]
  have h0b : (buffer.length != 0) = true := by simp [h0]
  simp only [h0b, if_true, bne_self_eq_false, Bool.false_eq_true, if_false]
  simp only [irecovery_send_buffer_loop]
  simp [htake, hnotbig, hst5, IRECOVERY_E_SUCCESS, count_dl_chunks_append,
    count_dl_chunks_progress, dl_chunk_data_append, dl_chunk_data_progress,
    count_dl_chunks, dl_chunk_data, chunk_data, is_dl_chunk, get_status_frame,
    crc32_acc_append, List.filter]
  have hnonempty : ∀ x : List Nat, (buffer ++ (dfu_xbuf ++ x)).isEmpty = false := by
    intro x
    cases buffer with
    | nil => exact absurd hlen (by simp)
    | cons b bs => rfl
  have hfiltprog : List.filter is_dl_chunk (progress_events cb (buffer.length + 16)) = [] := by
    cases cb <;> rfl
  simp [hnonempty, hfiltprog]
  constructor
  · intro a _ hmem
    rcases hmem with h | h | ⟨_, h⟩ | h <;> subst h <;> rfl
  · split_ifs <;> simp [dl_chunk_data, chunk_data]

/-- Witness for C6: a concrete 3-byte DFU upload. -/
theorem claim_C6_witness :
    count_dl_chunks (irecovery_send_buffer ⟨2, 5⟩ none IRECOVERY_K_DFU_MODE
        [1, 2, 3] 0).1 = 1 ∧
    dl_chunk_data (irecovery_send_buffer ⟨2, 5⟩ none IRECOVERY_K_DFU_MODE
        [1, 2, 3] 0).1
      = [1, 2, 3] ++ dfu_xbuf ++
        le4 (crc32_acc 0xFFFFFFFF ([1, 2, 3] ++ dfu_xbuf)) :=
  claim_C6_dfu_single_chunk ⟨2, 5⟩ none IRECOVERY_K_DFU_MODE [1, 2, 3] 0
    (Or.inl rfl) (by decide) (by decide) rfl rfl


/-- When the final chunk plus the 16-byte trailer would exceed the DFU
packet size, the source sends the chunk first and the trailer as a
standalone 16-byte transfer: two download-chunk transfers in total. -/
theorem send_buffer_dfu_trailer_split (env : UsbEnv) (cb : Option (Nat → Int))
    (buffer : List Nat) (options : Nat)
    (hlen : 0x7F0 < buffer.length) (hlt : buffer.length < 0x800)
    (hstate : env.device_state = 2) (hst : env.status = 5) :
    count_dl_chunks (irecovery_send_buffer env cb IRECOVERY_K_DFU_MODE
        buffer options).1 = 2 := by
  have hstate2 : (env.device_state == 2) = true := by simp [hstate]
  have hst5 : (env.status == 5) = true := by simp [hst]
  have hmod : buffer.length % 0x800 = buffer.length := Nat.mod_eq_of_lt hlt
  have hdiv : buffer.length / 0x800 = 0 := Nat.div_eq_of_lt hlt
  have h0 : buffer.length ≠ 0 := by omega
  have h0b : (buffer.length != 0) = true := by simp [h0]
  have htake : (buffer.drop (0 * 0x800)).take buffer.length = buffer := by
    simp
  have hbig : buffer.length + 16 > 0x800 := by omega
  have hnonemptyA : buffer.isEmpty = false := by
    cases buffer with
    | nil => exact absurd hlen (by simp)
    | cons b bs => rfl
  have hnonemptyB : ∀ x : List Nat, (dfu_xbuf ++ x).isEmpty = false := by
    intro x; rfl
  have hrec : (!((IRECOVERY_K_DFU_MODE : Nat) == IRECOVERY_K_DFU_MODE) &&
      !((IRECOVERY_K_DFU_MODE : Nat) == IRECOVERY_K_WTF_MODE)) = false := by
    decide
  simp only [irecovery_send_buffer, hrec, Bool.false_eq_true, if_false,
    hstate2, if_true, hmod, hdiv, Nat.zero_add, h0b]
  simp only [irecovery_send_buffer_loop]
  simp [htake, hbig, hst5, IRECOVERY_E_SUCCESS, count_dl_chunks_append,
    count_dl_chunks_progress, count_dl_chunks, is_dl_chunk, get_status_frame,
    List.filter, hnonemptyA, hnonemptyB]
  constructor
  · intro a ha
    cases cb with
    | none => simp [progress_events] at ha
    | some f =>
        simp [progress_events] at ha
        subst ha; rfl
  · intro a _ hmem
    rcases hmem with h | h | ⟨_, h⟩ | h <;> subst h <;> rfl

/-- Counterexample to C6 as stated: the DFU upload of 0x7F8 zero bytes —
a length strictly between 0 and 0x800 — transmits two download-chunk
control transfers, not one. -/
theorem claim_C6_counterexample :
    ¬ (count_dl_chunks (irecovery_send_buffer ⟨2, 5⟩ none IRECOVERY_K_DFU_MODE
        (List.replicate 0x7F8 0) 0).1 = 1) := by
  have h2 := send_buffer_dfu_trailer_split ⟨2, 5⟩ none (List.replicate 0x7F8 0) 0
    (by simp) (by simp) rfl rfl
  omega

/-- A download chunk whose data ends in the magic-plus-CRC trailer is
never empty. -/
theorem append_dfu_xbuf_nonempty (a x : List Nat) :
    ((a ++ dfu_xbuf) ++ x).isEmpty = false := by
  cases a <;> rfl


/-- C7: the source invokes the progress callback after each packet but
discards its return value (`client->progress_callback(client, &event);`
with no check), contradicting irecovery.h's documentation that a nonzero
return makes the API function exit early.  A two-packet DFU upload with a
callback that always returns 1 emits progress with return value 1 after
the first packet and still transmits the second packet, completing with
success. -/
theorem claim_C7_callback_return_ignored (env : UsbEnv) (buffer : List Nat)
    (hlen : buffer.length = 0x801)
    (hstate : env.device_state = 2) (hst : env.status = 5) :
    packet_after_nonzero_callback
      (irecovery_send_buffer env (some (fun _ => 1)) IRECOVERY_K_DFU_MODE
        buffer 0).1 = true ∧
    (irecovery_send_buffer env (some (fun _ => 1)) IRECOVERY_K_DFU_MODE
        buffer 0).2 = IRECOVERY_E_SUCCESS := by
  have hrec : (!((IRECOVERY_K_DFU_MODE : Nat) == IRECOVERY_K_DFU_MODE) &&
      !((IRECOVERY_K_DFU_MODE : Nat) == IRECOVERY_K_WTF_MODE)) = false := by
    decide
  have hstate2 : (env.device_state == 2) = true := by simp [hstate]
  have hst5 : (env.status == 5) = true := by simp [hst]
  simp only [irecovery_send_buffer, hrec, Bool.false_eq_true, if_false,
    hstate2, if_true, hlen]
  simp only [irecovery_send_buffer_loop]
  simp [hst5, IRECOVERY_E_SUCCESS, packet_after_nonzero_callback,
    progress_events, is_data_frame, is_dl_chunk, is_bulk_frame,
    get_status_frame, append_dfu_xbuf_nonempty]
  intro h
  exact absurd h (by omega)

/-- Witness for C7: the concrete 0x801-byte all-zero upload. -/
theorem claim_C7_witness :
    packet_after_nonzero_callback
      (irecovery_send_buffer ⟨2, 5⟩ (some (fun _ => 1)) IRECOVERY_K_DFU_MODE
        (List.replicate 0x801 0) 0).1 = true ∧
    (irecovery_send_buffer ⟨2, 5⟩ (some (fun _ => 1)) IRECOVERY_K_DFU_MODE
        (List.replicate 0x801 0) 0).2 = IRECOVERY_E_SUCCESS :=
  claim_C7_callback_return_ignored ⟨2, 5⟩ (List.replicate 0x801 0)
    (by simp) rfl rfl

/-- The descriptor environment of the C2 scenario: handles 1 and 2 both
answer with an Apple (0x05AC) DFU (0x1227) device descriptor. -/
def c2_descs : Nat → Option DeviceDesc :=
  fun h => if h == 1 || h == 2 then some ⟨0x05AC, 0x1227, 1⟩ else none

/-- C2: `num_connections` is initialized to 0 by `irecovery_client_new`
and never written again anywhere in the source, so the
one-connection-limit check `num_connections == 1` never fires: after
enabled(handle=1) adopts device 1, enabled(handle=2) adopts device 2 —
displacing device 1 instead of being ignored as the policy's own
documentation ("Ignore new connections after the initial one") and the
claim demand. -/
theorem claim_C2_one_connection_limit_bug :
    (usb_event_handler true c2_descs
      (irecovery_client_new ConnectionPolicy.oneConnectionLimit 0)
      (UsbEvent.deviceEnabled 1)).handle = 1 ∧
    (usb_event_handler true c2_descs
      (usb_event_handler true c2_descs
        (irecovery_client_new ConnectionPolicy.oneConnectionLimit 0)
        (UsbEvent.deviceEnabled 1))
      (UsbEvent.deviceEnabled 2)).handle = 2 := by
  decide

/- ---------------------------------------------------------------------
   Identity-parser lemmas (C3)
   --------------------------------------------------------------------- -/

/-- `startsWith pat s` holds exactly when `pat` is a prefix of `s`. -/
theorem startsWith_iff (pat s : List Char) :
    startsWith pat s = true ↔ ∃ t, s = pat ++ t := by
  induction pat generalizing s with
  | nil => simp [startsWith]
  | cons p ps ih =>
      cases s with
      | nil => simp [startsWith]
      | cons c cs =>
          simp only [startsWith, Bool.and_eq_true, beq_iff_eq, ih,
            List.cons_append, List.cons.injEq]
          constructor
          · rintro ⟨hpc, t, ht⟩; exact ⟨t, hpc.symm, ht⟩
          · rintro ⟨t, hcp, ht⟩; exact ⟨hcp.symm, t, ht⟩

theorem strstr_isSome_iff (pat s : List Char) :
    (strstr pat s).isSome = true ↔ ∃ a b, s = a ++ pat ++ b := by
  induction s with
  | nil =>
      cases pat with
      | nil =>
          constructor
          · intro _; exact ⟨[], [], rfl⟩
          · intro _; rfl
      | cons p ps =>
          constructor
          · intro hs; simp [strstr, startsWith] at hs
          · rintro ⟨a, b, hab⟩
            cases a <;> simp at hab
  | cons c cs ih =>
      simp only [strstr]
      by_cases h : startsWith pat (c :: cs) = true
      · obtain ⟨t, ht⟩ := (startsWith_iff pat (c :: cs)).mp h
        simp [h]
        exact ⟨[], t, by simp [ht]⟩
      · simp only [h, Bool.false_eq_true, if_false, ih]
        constructor
        · rintro ⟨a, b, hab⟩
          exact ⟨c :: a, b, by simp [hab]⟩
        · rintro ⟨a, b, hab⟩
          rcases a with _ | ⟨x, xs⟩
          · exfalso
            apply h
            rw [startsWith_iff]
            simp at hab
            exact ⟨b, hab⟩
          · simp at hab
            exact ⟨xs, b, by rw [hab.2, List.append_assoc]⟩

theorem parse_scalar_ne_none_iff (tag s : List Char) :
    parse_scalar tag s ≠ none ↔
      ∃ suf c rest, strstr tag s = some suf ∧
        suf.drop tag.length = c :: rest ∧ isHexDigitC c = true := by
  unfold parse_scalar scan_hex_value
  cases h : strstr tag s with
  | none => simp [h]
  | some suf =>
      simp only [h, Option.some.injEq]
      constructor
      · intro hne
        cases hd : suf.drop tag.length with
        | nil =>
            rw [hd] at hne
            exact absurd rfl hne
        | cons c rest =>
            rw [hd] at hne
            by_cases hc : isHexDigitC c = true
            · exact ⟨suf, c, rest, rfl, hd, hc⟩
            · exfalso
              apply hne
              have hc2 : isHexDigitC c = false := by
                revert hc; cases isHexDigitC c <;> simp
              simp [List.takeWhile, hc2]
      · rintro ⟨suf2, c, rest, hsuf, hd, hc⟩
        subst hsuf
        rw [hd]
        simp [List.takeWhile, hc]

theorem contains_rbracket_takeWhile (l : List Char) :
    (l.takeWhile (fun c => !(c == ']'))).contains ']' = false := by
  induction l with
  | nil => rfl
  | cons c cs ih =>
      cases hc : (c == ']') with
      | true => simp [List.takeWhile, hc]
      | false =>
          simp only [List.takeWhile, hc, Bool.not_false, List.contains_cons,
            ih, Bool.or_false]
          rw [beq_eq_false_iff_ne] at hc ⊢
          exact fun he => hc he.symm

theorem strrchr_trunc_of_not_contains (t : List Char)
    (h : t.contains ']' = false) : strrchr_trunc t = t := by
  induction t with
  | nil => rfl
  | cons c cs ih =>
      rw [List.contains_cons, Bool.or_eq_false_iff] at h
      have hc : (c == ']') = false := by
        rw [beq_eq_false_iff_ne] at h ⊢
        exact fun he => h.1 he.symm
      simp only [strrchr_trunc, h.2, hc, Bool.false_eq_true, if_false]

theorem parse_bracket_eq (tag s : List Char) :
    parse_bracket tag s
      = (strstr tag s).map
          (fun suf => (suf.drop tag.length).takeWhile (fun c => !(c == ']'))) := by
  unfold parse_bracket scan_bracket_chars
  cases h : strstr tag s with
  | none => rfl
  | some suf =>
      simp only [h]
      rw [strrchr_trunc_of_not_contains _ (contains_rbracket_takeWhile _)]
      rfl

theorem parse_bracket_ne_none_iff (tag s : List Char) :
    parse_bracket tag s ≠ none ↔ ∃ a b, s = a ++ tag ++ b := by
  rw [parse_bracket_eq, ← strstr_isSome_iff]
  cases strstr tag s <;> simp

/-- C3 (amended): the parser acts on the first occurrence of each tag.
For every identity string: a scalar field (CPID, CPRV, CPFM, SCEP, BDID,
ECID, IBFL) is populated exactly when its tag occurs and the first
occurrence is followed by a decodable (hex) value; a bracketed field
(SRNM, IMEI, SRTG, PWND) is populated exactly when its tag-with-bracket
occurs, and its value consists of the characters up to the first `]`
after the first occurrence's opening bracket; all other fields are left
zero/empty.  (`strstr pat s` is the suffix of `s` at the first occurrence
of `pat`; the first conjunct is its substring semantics.) -/
theorem claim_C3_identity_fields (s : List Char) :
    (∀ pat : List Char,
      (strstr pat s).isSome = true ↔ ∃ a b, s = a ++ pat ++ b) ∧
    ((parse_iboot_string s).cpid ≠ none ↔
      ∃ suf c rest, strstr tagCPID s = some suf ∧
        suf.drop tagCPID.length = c :: rest ∧ isHexDigitC c = true) ∧
    ((parse_iboot_string s).cprv ≠ none ↔
      ∃ suf c rest, strstr tagCPRV s = some suf ∧
        suf.drop tagCPRV.length = c :: rest ∧ isHexDigitC c = true) ∧
    ((parse_iboot_string s).cpfm ≠ none ↔
      ∃ suf c rest, strstr tagCPFM s = some suf ∧
        suf.drop tagCPFM.length = c :: rest ∧ isHexDigitC c = true) ∧
    ((parse_iboot_string s).scep ≠ none ↔
      ∃ suf c rest, strstr tagSCEP s = some suf ∧
        suf.drop tagSCEP.length = c :: rest ∧ isHexDigitC c = true) ∧
    ((parse_iboot_string s).bdid ≠ none ↔
      ∃ suf c rest, strstr tagBDID s = some suf ∧
        suf.drop tagBDID.length = c :: rest ∧ isHexDigitC c = true) ∧
    ((parse_iboot_string s).ecid ≠ none ↔
      ∃ suf c rest, strstr tagECID s = some suf ∧
        suf.drop tagECID.length = c :: rest ∧ isHexDigitC c = true) ∧
    ((parse_iboot_string s).ibfl ≠ none ↔
      ∃ suf c rest, strstr tagIBFL s = some suf ∧
        suf.drop tagIBFL.length = c :: rest ∧ isHexDigitC c = true) ∧
    ((parse_iboot_string s).srnm ≠ none ↔ ∃ a b, s = a ++ tagSRNM ++ b) ∧
    ((parse_iboot_string s).imei ≠ none ↔ ∃ a b, s = a ++ tagIMEI ++ b) ∧
    ((parse_iboot_string s).srtg ≠ none ↔ ∃ a b, s = a ++ tagSRTG ++ b) ∧
    ((parse_iboot_string s).pwnd ≠ none ↔ ∃ a b, s = a ++ tagPWND ++ b) ∧
    ((parse_iboot_string s).srnm = (strstr tagSRNM s).map
      (fun suf => (suf.drop tagSRNM.length).takeWhile (fun c => !(c == ']')))) ∧
    ((parse_iboot_string s).imei = (strstr tagIMEI s).map
      (fun suf => (suf.drop tagIMEI.length).takeWhile (fun c => !(c == ']')))) ∧
    ((parse_iboot_string s).srtg = (strstr tagSRTG s).map
      (fun suf => (suf.drop tagSRTG.length).takeWhile (fun c => !(c == ']')))) ∧
    ((parse_iboot_string s).pwnd = (strstr tagPWND s).map
      (fun suf => (suf.drop tagPWND.length).takeWhile (fun c => !(c == ']')))) :=
  ⟨fun pat => strstr_isSome_iff pat s,
    parse_scalar_ne_none_iff tagCPID s, parse_scalar_ne_none_iff tagCPRV s,
    parse_scalar_ne_none_iff tagCPFM s, parse_scalar_ne_none_iff tagSCEP s,
    parse_scalar_ne_none_iff tagBDID s, parse_scalar_ne_none_iff tagECID s,
    parse_scalar_ne_none_iff tagIBFL s,
    parse_bracket_ne_none_iff tagSRNM s, parse_bracket_ne_none_iff tagIMEI s,
    parse_bracket_ne_none_iff tagSRTG s, parse_bracket_ne_none_iff tagPWND s,
    parse_bracket_eq tagSRNM s, parse_bracket_eq tagIMEI s,
    parse_bracket_eq tagSRTG s, parse_bracket_eq tagPWND s⟩

/-- Counterexample to C3 as stated: in the identity string
"CPID:x CPID:5" the CPID tag appears with a decodable value (its second
occurrence is followed by the hex digit 5), yet the parser leaves the
cpid field zero: the source only ever looks at the first occurrence
(strstr), whose value "x" fails to decode. -/
theorem claim_C3_counterexample :
    ("CPID:x CPID:5".toList
        = "CPID:x ".toList ++ tagCPID ++ "5".toList ∧
      isHexDigitC '5' = true) ∧
    (parse_iboot_string ("CPID:x CPID:5".toList)).cpid = none := by
  constructor
  · constructor
    · decide
    · decide
  · decide

/-- C4 (amended): if a client was constructed with a non-zero ECID
restriction and the ECID parsed from the device identity differs from it,
finalization sets the finalization state to blocked (-1) and returns the
ECID-mismatch error, but — contrary to the claim — it does not clear the
device-info strings: the parsed SRNM and the duplicated serial string
remain; every subsequent polling call while the same device remains
attached (no pending USB events) returns the finalization-blocked error
with the client state unchanged, without retrying any finalization
step. -/
theorem claim_C4_ecid_mismatch (env : FinalizeEnv) (descs : Nat → Option DeviceDesc)
    (c : ClientState)
    (husable : irecovery_client_is_usable env.host c = true)
    (hfin : c.finalized = 0)
    (hser : env.serial_ok = true)
    (hres : c.ecid_restriction ≠ 0)
    (hmis : c.ecid_restriction
      ≠ (parse_iboot_string env.serial_string).ecid.getD 0) :
    (irecovery_finalize_client env c).1 = IRECOVERY_E_ECID_MISMATCH ∧
    (irecovery_finalize_client env c).2.finalized = -1 ∧
    (irecovery_finalize_client env c).2.device_info.srnm
      = (parse_iboot_string env.serial_string).srnm ∧
    (irecovery_finalize_client env c).2.device_info.serial_string
      = some env.serial_string ∧
    (irecovery_poll_for_device env descs [] (irecovery_finalize_client env c).2)
      = (IRECOVERY_E_FINALIZATION_BLOCKED, (irecovery_finalize_client env c).2) := by
  have hmain : irecovery_finalize_client env c
      = (IRECOVERY_E_ECID_MISMATCH,
         { irecovery_load_device_info_from_iboot_string c env.serial_string with
           finalized := -1 }) := by
    unfold irecovery_finalize_client
    rw [husable]
    simp only [hfin, hser, Bool.not_true, Bool.false_eq_true, if_false]
    have hcond : ((irecovery_load_device_info_from_iboot_string c
        env.serial_string).ecid_restriction != 0 &&
        (irecovery_load_device_info_from_iboot_string c
          env.serial_string).ecid_restriction !=
          (irecovery_load_device_info_from_iboot_string c
            env.serial_string).device_info.ecid.getD 0) = true := by
      simp only [irecovery_load_device_info_from_iboot_string]
      simp [hres, hmis]
    rw [hcond]
    simp
  rw [hmain]
  have husable2 : irecovery_client_is_usable env.host
      { irecovery_load_device_info_from_iboot_string c env.serial_string with
        finalized := -1 } = true := by
    unfold irecovery_client_is_usable at husable ⊢
    unfold irecovery_load_device_info_from_iboot_string
    simp only [Bool.and_eq_true] at husable
    simp [husable.1.1, husable.1.2, device_zone_nonzero]
  refine ⟨rfl, rfl, ?_, ?_, ?_⟩
  · simp [irecovery_load_device_info_from_iboot_string]
  · simp [irecovery_load_device_info_from_iboot_string, parse_iboot_string]
  · unfold irecovery_poll_for_device
    simp only [List.foldl_nil]
    unfold irecovery_finalize_client
    rw [husable2]
    simp

/-- C9 (amended): finalization steps 1-4 are abortive on first error
(shown for step 1, the serial-descriptor read, which aborts leaving the
state pending, and step 4, configuration selection, which aborts setting
the blocked state), but step 5 is not: when fetching string descriptor
index 1 for the NONC/SNON nonces fails, the failure is swallowed —
finalization still marks the client finalized and returns success, with
both nonce fields left empty. -/
theorem claim_C9_finalize_step5 (env : FinalizeEnv) (c : ClientState)
    (husable : irecovery_client_is_usable env.host c = true)
    (hfin : c.finalized = 0)
    (hres : c.ecid_restriction = 0) :
    (env.serial_ok = false →
      irecovery_finalize_client env c = (IRECOVERY_E_DESCRIPTOR_FETCH_FAILED, c)) ∧
    (env.serial_ok = true → env.set_config_ok = false →
      (irecovery_finalize_client env c).1 = IRECOVERY_E_DESCRIPTOR_SET_FAILED ∧
      (irecovery_finalize_client env c).2.finalized = -1) ∧
    (env.serial_ok = true → env.set_config_ok = true → env.nonce_ok = false →
      (irecovery_finalize_client env c).1 = IRECOVERY_E_SUCCESS ∧
      (irecovery_finalize_client env c).2.finalized = 1 ∧
      (irecovery_finalize_client env c).2.device_info.ap_nonce = none ∧
      (irecovery_finalize_client env c).2.device_info.sep_nonce = none) := by
  have hcond : ∀ s : List Char,
      ((irecovery_load_device_info_from_iboot_string c s).ecid_restriction != 0 &&
       (irecovery_load_device_info_from_iboot_string c s).ecid_restriction !=
         (irecovery_load_device_info_from_iboot_string c
           s).device_info.ecid.getD 0) = false := by
    intro s
    simp [irecovery_load_device_info_from_iboot_string, hres]
  refine ⟨?_, ?_, ?_⟩
  · intro hser
    unfold irecovery_finalize_client
    rw [husable]
    simp [hfin, hser]
  · intro hser hcfg
    unfold irecovery_finalize_client
    rw [husable]
    simp only [hfin, hser, Bool.not_true, Bool.false_eq_true, if_false,
      Bool.not_false, if_true]
    rw [hcond]
    simp [hcfg]
  · intro hser hcfg hnon
    unfold irecovery_finalize_client
    rw [husable]
    simp only [hfin, hser, Bool.not_true, Bool.false_eq_true, if_false,
      Bool.not_false, if_true]
    rw [hcond]
    simp only [Bool.false_eq_true, if_false, hcfg, Bool.not_true]
    have hnonce : ∀ c2 tag cur, cur = none →
        irecovery_copy_nonce_with_tag env c2 tag cur = none := by
      intro c2 tag cur hcur
      unfold irecovery_copy_nonce_with_tag
      subst hcur
      simp [hnon]
    simp [hnonce _ _ _ rfl, irecovery_load_device_info_from_iboot_string,
      parse_iboot_string, emptyDeviceInfo]

/-- Environment of the C4 scenario: attached DFU device whose identity
reports ECID 0x01. -/
def c4_env : FinalizeEnv :=
  { host := true
    serial_ok := true
    serial_string := "ECID:01 SRNM:[F2X]".toList
    set_config_ok := true
    nonce_ok := true
    nonce_string := [] }

/-- Client of the C4 scenario: constructed with ECID restriction
0xDEADBEEF, then attached to device handle 1. -/
def c4_client : ClientState :=
  { irecovery_client_new ConnectionPolicy.acceptAll 0xDEADBEEF with
    handle := 1
    device_descriptor := ⟨0x05AC, 0x1227, 1⟩ }

/-- Counterexample to C4 as stated: on an ECID mismatch (restriction
0xDEADBEEF vs parsed 0x01) finalization returns the ECID-mismatch error
but does not clear the device-info strings — the parsed SRNM and the
serial string are still present afterwards. -/
theorem claim_C4_counterexample :
    (irecovery_finalize_client c4_env c4_client).1 = IRECOVERY_E_ECID_MISMATCH ∧
    (irecovery_finalize_client c4_env c4_client).2.device_info.srnm ≠ none ∧
    (irecovery_finalize_client c4_env c4_client).2.device_info.serial_string
      ≠ none := by
  decide

/-- Witness for C4: the concrete mismatch scenario, hypotheses discharged
by evaluation. -/
theorem claim_C4_witness :
    (irecovery_finalize_client c4_env c4_client).1 = IRECOVERY_E_ECID_MISMATCH ∧
    (irecovery_finalize_client c4_env c4_client).2.finalized = -1 ∧
    (irecovery_finalize_client c4_env c4_client).2.device_info.srnm
      = (parse_iboot_string c4_env.serial_string).srnm ∧
    (irecovery_finalize_client c4_env c4_client).2.device_info.serial_string
      = some c4_env.serial_string ∧
    (irecovery_poll_for_device c4_env (fun _ => none) []
        (irecovery_finalize_client c4_env c4_client).2)
      = (IRECOVERY_E_FINALIZATION_BLOCKED,
         (irecovery_finalize_client c4_env c4_client).2) :=
  claim_C4_ecid_mismatch c4_env (fun _ => none) c4_client (by decide) rfl rfl
    (by decide) (by decide)

/-- Environment of the C9 scenario: the identity read and configuration
succeed, but the index-1 (nonce) descriptor read fails. -/
def c9_env : FinalizeEnv :=
  { host := true
    serial_ok := true
    serial_string := "ECID:01".toList
    set_config_ok := true
    nonce_ok := false
    nonce_string := [] }

/-- Client of the C9 scenario: no ECID restriction, attached to device
handle 1. -/
def c9_client : ClientState :=
  { irecovery_client_new ConnectionPolicy.acceptAll 0 with
    handle := 1
    device_descriptor := ⟨0x05AC, 0x1227, 1⟩ }

/-- Counterexample to C9 as stated: the step-5 nonce fetch fails
(nonce_ok = false), yet finalization returns success and marks the
client finalized instead of aborting. -/
theorem claim_C9_counterexample :
    c9_env.nonce_ok = false ∧
    (irecovery_finalize_client c9_env c9_client).1 = IRECOVERY_E_SUCCESS ∧
    (irecovery_finalize_client c9_env c9_client).2.finalized = 1 := by
  decide

/-- Witness for C9: the concrete scenario, hypotheses discharged by
evaluation. -/
theorem claim_C9_witness :
    (irecovery_finalize_client c9_env c9_client).1 = IRECOVERY_E_SUCCESS ∧
    (irecovery_finalize_client c9_env c9_client).2.finalized = 1 ∧
    (irecovery_finalize_client c9_env c9_client).2.device_info.ap_nonce = none ∧
    (irecovery_finalize_client c9_env c9_client).2.device_info.sep_nonce
      = none :=
  (claim_C9_finalize_step5 c9_env c9_client (by decide) rfl rfl).2.2 rfl rfl rfl

/-- C8: for a usable client in one of the four recovery modes, a command
of length exactly 255 is transmitted via control transfer 0x40 with its
null terminator (wLength = data length = 256) and succeeds when the
transfer succeeds; a command of length 256 or more fails with
command-too-long; an empty command fails with no-command; and outside the
recovery modes send_command fails with service-not-available. -/
theorem claim_C8_send_command_lengths (mode : Nat) (command : List Char) :
    (mode_is_recovery mode = true → command.length = 255 →
      irecovery_send_command true true mode command
        = (IRECOVERY_E_SUCCESS, some (UsbFrame.control 0x40
            (if irecovery_is_breq_command command then 1 else 0) 0 0
            (command.map Char.toNat ++ [0]))) ∧
      (command.map Char.toNat ++ [0]).length = 256) ∧
    (mode_is_recovery mode = true → command.length ≥ 256 →
      irecovery_send_command true true mode command
        = (IRECOVERY_E_COMMAND_TOO_LONG, none)) ∧
    (mode_is_recovery mode = true → command.length = 0 →
      irecovery_send_command true true mode command
        = (IRECOVERY_E_NO_COMMAND, none)) ∧
    (mode_is_recovery mode = false →
      irecovery_send_command true true mode command
        = (IRECOVERY_E_SERVICE_NOT_AVAILABLE, none)) := by
  unfold irecovery_send_command irecovery_send_command_breq
    irecovery_send_command_raw
  refine ⟨?_, ?_, ?_, ?_⟩
  · intro hm h255
    constructor
    · simp [hm, h255]
    · simp [h255]
  · intro hm hge
    simp [hm, hge]
  · intro hm h0
    simp [hm, h0]
  · intro hm
    simp [hm]

theorem cstrlen_append_le (w r : List Nat) :
    cstrlen (w ++ r) ≤ w.length + cstrlen r := by
  induction w with
  | nil => simp [cstrlen]
  | cons a w ih =>
      by_cases ha : (a != 0) = true
      · simp only [cstrlen, List.cons_append, List.takeWhile, ha,
          List.length_cons, List.append_eq] at ih ⊢
        omega
      · have ha2 : (a != 0) = false := by revert ha; cases (a != 0) <;> simp
        simp [cstrlen, List.takeWhile, ha2]

theorem cstrlen_replicate_zero (k : Nat) :
    cstrlen (List.replicate k 0) = 0 := by
  cases k with
  | zero => rfl
  | succ n => simp [cstrlen, List.replicate, List.takeWhile]

/-- C10: irecovery_getenv fails with the bad-pointer error whenever the
out-parameter holds a non-NULL value on entry; on any error return the
out-parameter is unchanged; and on success it receives a (freshly
allocated, in the C) 256-byte buffer that is always NUL-terminated with
C-string length at most 255 — the buffer is zero-initialized and the
0xC0 read writes at most wLength = 255 bytes. -/
theorem claim_C10_getenv (usable cmd_ok calloc_ok read_ok : Bool) (mode : Nat)
    (variable_name : List Char) (value_in : Option (List Nat))
    (response : List Nat) :
    (value_in ≠ none →
      irecovery_getenv usable cmd_ok calloc_ok read_ok mode variable_name
          value_in response
        = (IRECOVERY_E_BAD_PTR, value_in)) ∧
    ((irecovery_getenv usable cmd_ok calloc_ok read_ok mode variable_name
        value_in response).1 ≠ IRECOVERY_E_SUCCESS →
      (irecovery_getenv usable cmd_ok calloc_ok read_ok mode variable_name
        value_in response).2 = value_in) ∧
    ((irecovery_getenv usable cmd_ok calloc_ok read_ok mode variable_name
        value_in response).1 = IRECOVERY_E_SUCCESS →
      ∃ buf, (irecovery_getenv usable cmd_ok calloc_ok read_ok mode
          variable_name value_in response).2 = some buf ∧
        buf.length = 256 ∧ cstrlen buf ≤ 255) := by
  unfold irecovery_getenv
  cases value_in with
  | some v => simp [IRECOVERY_E_BAD_PTR, IRECOVERY_E_SUCCESS]
  | none =>
      simp only [ne_eq, not_true_eq_false, false_implies, true_and,
        reduceCtorEq, not_false_eq_true, bne_iff_ne]
      by_cases he : (irecovery_send_command_raw usable cmd_ok mode
          (("getenv ".toList ++ variable_name).take 254) 0).1
          = IRECOVERY_E_SUCCESS
      · simp only [he, ne_eq, not_true_eq_false, false_implies,
          if_neg (by simp : ¬(IRECOVERY_E_SUCCESS ≠ IRECOVERY_E_SUCCESS))]
        cases calloc_ok with
        | false => simp [IRECOVERY_E_NO_MEMORY, IRECOVERY_E_SUCCESS]
        | true =>
            cases read_ok with
            | false => simp [IRECOVERY_E_USB_UPLOAD_FAILED, IRECOVERY_E_SUCCESS]
            | true =>
                simp only [Bool.not_true, Bool.false_eq_true, if_false]
                refine ⟨by simp, fun _ => ⟨_, rfl, ?_, ?_⟩⟩
                · have hle : (response.take 255).length ≤ 255 := by
                    simp [List.length_take]
                  simp only [List.length_append, List.length_replicate]
                  omega
                · have h1 := cstrlen_append_le (response.take 255)
                    (List.replicate (256 - (response.take 255).length) 0)
                  have h2 := cstrlen_replicate_zero
                    (256 - (response.take 255).length)
                  have hle : (response.take 255).length ≤ 255 := by
                    simp [List.length_take]
                  omega
      · have he2 : (irecovery_send_command_raw usable cmd_ok mode
            (("getenv ".toList ++ variable_name).take 254) 0).1
            ≠ IRECOVERY_E_SUCCESS := he
        rw [if_pos he2]
        exact ⟨fun _ => rfl, fun hh => absurd hh he⟩

/-- Witness for C8: the four boundary cases at concrete commands. -/
theorem claim_C8_witness :
    ((irecovery_send_command true true 0x1280 (List.replicate 255 'a')
        = (IRECOVERY_E_SUCCESS, some (UsbFrame.control 0x40
            (if irecovery_is_breq_command (List.replicate 255 'a') then 1 else 0)
            0 0 ((List.replicate 255 'a').map Char.toNat ++ [0])))) ∧
      ((List.replicate 255 'a').map Char.toNat ++ [0]).length = 256) ∧
    (irecovery_send_command true true 0x1280 (List.replicate 256 'a')
      = (IRECOVERY_E_COMMAND_TOO_LONG, none)) ∧
    (irecovery_send_command true true 0x1280 []
      = (IRECOVERY_E_NO_COMMAND, none)) ∧
    (irecovery_send_command true true 0x1227 "go".toList
      = (IRECOVERY_E_SERVICE_NOT_AVAILABLE, none)) :=
  ⟨(claim_C8_send_command_lengths 0x1280 (List.replicate 255 'a')).1
      (by decide) (by simp),
    (claim_C8_send_command_lengths 0x1280 (List.replicate 256 'a')).2.1
      (by decide) (by simp),
    (claim_C8_send_command_lengths 0x1280 []).2.2.1 (by decide) rfl,
    (claim_C8_send_command_lengths 0x1227 ("go".toList)).2.2.2 (by decide)⟩

/-- Witness for C10: the bad-pointer case at a non-NULL entry value, and
the success case at a concrete query. -/
theorem claim_C10_witness :
    (irecovery_getenv true true true true 0x1280 ("x".toList) (some []) []
      = (IRECOVERY_E_BAD_PTR, some [])) ∧
    (∃ buf, (irecovery_getenv true true true true 0x1280 ("x".toList) none
        [65, 66]).2 = some buf ∧ buf.length = 256 ∧ cstrlen buf ≤ 255) :=
  ⟨(claim_C10_getenv true true true true 0x1280 ("x".toList) (some []) []).1
      (by simp),
    (claim_C10_getenv true true true true 0x1280 ("x".toList) none
      [65, 66]).2.2 (by decide)⟩
